import Mathlib

/-!
Shallow embedding of `src/src/modules/cost-monitor/retriv_bridge.py`, the
line-delimited JSON command bridge of the locallama-mcp repository.

The bridge reads one JSON command per line from stdin, dispatches on the
`action` field to an index builder (`process_index_command`) or a query
handler (`process_search_command`), and prints one response per command.
Process-wide mutable state is the pair of globals `bm25_instance` and
`indexed`; here it is the explicit record `BridgeState`, threaded through
the handlers.

The external scoring capability (the `retriv` BM25 library) is not part of
this repository; it is modelled as oracle parameters: `build` for
`BM25.index(documents)` (returning `none` on success or `some msg` when it
raises, `msg` being the Python exception text), and `search` for
`BM25.search(query)` (returning the capability's ordered score list, or a
failure message).  Likewise `json.loads` is external: an input line is
given to the loop already classified as blank, as a parse failure, or as a
parsed JSON value (`InputLine`).

JSON values are modelled by the inductive `Json`; Python's distinction
between `int` and `float` numbers is kept because list slicing accepts the
former and rejects the latter.  Floating-point numbers coming out of
`json.loads` are decimal literals and are modelled exactly as rationals;
no floating-point arithmetic is performed by the bridge itself (scores are
passed through untouched).
-/

namespace RetrivBridge

/-- A JSON value as produced by Python's `json.loads`: `null`, booleans,
numbers (Python keeps `int` and `float` apart), strings, arrays, and
objects (string-keyed, keys unique since they come from a `dict`). -/
inductive Json where
  | null
  | bool (b : Bool)
  | int (n : Int)
  | float (q : ℚ)
  | str (s : String)
  | arr (elems : List Json)
  | obj (fields : List (String × Json))
deriving Repr

/-- Models `d.get(key, dflt)` on a Python dict decoded from JSON (keys unique). -/
def dictGet (fields : List (String × Json)) (key : String) (dflt : Json) : Json :=
  match fields.lookup key with
  | some v => v
  | none => dflt

/-- Python truthiness (`if x:`) of a JSON-decoded value. -/
def pyTruthy : Json → Bool
  | .null => false
  | .bool b => b
  | .int n => n != 0
  | .float q => q != 0
  | .str s => s != ""
  | .arr xs => !xs.isEmpty
  | .obj fs => !fs.isEmpty

/-- The Python type name of a JSON-decoded value, as it appears in
`AttributeError` messages. -/
def pyTypeName : Json → String
  | .null => "NoneType"
  | .bool _ => "bool"
  | .int _ => "int"
  | .float _ => "float"
  | .str _ => "str"
  | .arr _ => "list"
  | .obj _ => "dict"

/-- `str(e)` for the `AttributeError` raised by `x.get(...)` when `x` is
not a dict: `'T' object has no attribute 'get'`. -/
def noGetAttrMsg (j : Json) : String :=
  "\x27" ++ pyTypeName j ++ "\x27 object has no attribute \x27get\x27"

/-- Python `repr` of a `float` whose exact value is the rational `q`.
JSON floats are decimal literals, so `q * 10^k` is integral for some small
`k`; the fallback branch (never reached for such values) renders the
fraction. -/
def floatRepr (q : ℚ) : String :=
  match (List.range 30).find? (fun k => (q * (10 : ℚ) ^ k).den == 1) with
  | some 0 => toString q.num ++ ".0"
  | some (k + 1) =>
      let v := (q * (10 : ℚ) ^ (k + 1)).num
      let sign := if v < 0 then "-" else ""
      let m := v.natAbs
      let ip := m / 10 ^ (k + 1)
      let fp := m % 10 ^ (k + 1)
      let fpStr := toString fp
      let pad := String.mk (List.replicate ((k + 1) - fpStr.length) '0')
      sign ++ toString ip ++ "." ++ pad ++ fpStr
  | none => toString q.num ++ "/" ++ toString q.den

/-- Python `repr` of a JSON-decoded value (string escaping inside nested
strings is not reproduced; keys and elements are rendered verbatim
between single quotes, as CPython does for strings without special
characters). -/
def pyRepr : Json → String
  | .null => "None"
  | .bool true => "True"
  | .bool false => "False"
  | .int n => toString n
  | .float q => floatRepr q
  | .str s => "\x27" ++ s ++ "\x27"
  | .arr xs =>
      "[" ++ String.intercalate ", " (xs.attach.map (fun ⟨x, h⟩ => pyRepr x)) ++ "]"
  | .obj fs =>
      "\x7b" ++ String.intercalate ", "
        (fs.attach.map (fun ⟨⟨k, v⟩, h⟩ => "\x27" ++ k ++ "\x27: " ++ pyRepr v)) ++ "\x7d"
termination_by j => sizeOf j
decreasing_by
  all_goals
    simp_wf
    have h1 := List.sizeOf_lt_of_mem h
    try simp only [Prod.mk.sizeOf_spec] at h1
    omega

/-- Python `str` of a JSON-decoded value, as interpolated by an f-string:
a `str` is rendered verbatim, everything else via `repr`. -/
def pyStr : Json → String
  | .str s => s
  | j => pyRepr j

/-- The state of a `BM25` object from the external `retriv` library:
its three construction parameters (stored as the raw JSON-decoded values
handed to the constructor) and, once `index(documents)` has returned
normally, the documents value it was indexed over (`none` before). -/
structure BM25Instance where
  k1 : Json
  b : Json
  epsilon : Json
  docs : Option Json
deriving Repr

/-- The process-wide mutable state of the bridge: the module globals
`bm25_instance` (initially `None`) and `indexed` (initially `False`). -/
structure BridgeState where
  bm25_instance : Option BM25Instance
  indexed : Bool
deriving Repr

/-- The state at process start: `bm25_instance = None`, `indexed = False`. -/
def initialState : BridgeState := { bm25_instance := none, indexed := false }

/-- One line printed to stdout: either a bare token (`RETRIV_READY`,
`INDEX_COMPLETE`) or `json.dumps` of a JSON value. -/
inductive Output where
  | raw (s : String)
  | json (j : Json)
deriving Repr

/-- The response `{"error": msg}`. -/
def errObj (msg : String) : Json := .obj [("error", .str msg)]

/-- The successful search response
`{"action": "search_results", "results": [...]}`. -/
def searchResultsObj (entries : List Json) : Json :=
  .obj [("action", .str "search_results"), ("results", .arr entries)]

/-- The failed search response
`{"action": "search_results", "results": [], "error": msg}`. -/
def searchErrorObj (msg : String) : Json :=
  .obj [("action", .str "search_results"), ("results", .arr []), ("error", .str msg)]

/-- Oracle for `bm25_instance.index(documents)` on the external library:
`none` means the call returned normally, `some msg` that it raised an
exception with `str(e) = msg`. -/
def BuildOracle : Type := Json → Option String

/-- Oracle for `bm25_instance.search(query)` on the external library:
given the instance (configuration and indexed documents) and the query
value, either the ordered list of relevance scores the capability
produces, or the message of the exception it raises.  Scores are decimal
values passed through by the bridge without arithmetic, modelled as
rationals. -/
def SearchOracle : Type := BM25Instance → Json → Except String (List ℚ)

/-- Outcome of `process_index_command`: the globals after the call, the
lines printed before returning or raising, and the uncaught exception
message when the call raised (`options.get` on a non-dict, or a raise out
of `bm25_instance.index`). -/
structure IndexResult where
  state : BridgeState
  out : List Output
  exn : Option String
deriving Repr

/-- Embeds `process_index_command` of retriv_bridge.py.  Note the global
`bm25_instance` is reassigned to a fresh unindexed instance before
`documents` is examined, exactly as in the source. -/
def process_index_command (build : BuildOracle) (st : BridgeState)
    (command_data : List (String × Json)) : IndexResult :=
  let documents := dictGet command_data "documents" (.arr [])
  let options := dictGet command_data "options" (.obj [])
  match options with
  | .obj opts =>
      let k1 := dictGet opts "k1" (.float (3 / 2))
      let b := dictGet opts "b" (.float (3 / 4))
      let epsilon := dictGet opts "epsilon" (.float (1 / 4))
      let fresh : BM25Instance := { k1 := k1, b := b, epsilon := epsilon, docs := none }
      let st1 : BridgeState := { st with bm25_instance := some fresh }
      if pyTruthy documents then
        match build documents with
        | none =>
            { state := { bm25_instance := some { fresh with docs := some documents },
                         indexed := true },
              out := [.raw "INDEX_COMPLETE"], exn := none }
        | some msg => { state := st1, out := [], exn := some msg }
      else
        { state := st1, out := [.json (errObj "No documents provided for indexing")],
          exn := none }
  | _ => { state := st, out := [], exn := some (noGetAttrMsg options) }

/-- Python list slicing `xs[:n]` for an `int` bound `n`: a prefix of `xs`
of length `n` clamped to `[0, len(xs)]`, where a negative `n` counts from
the end. -/
def pySliceTo (xs : List ℚ) (n : Int) : List ℚ :=
  if 0 ≤ n then xs.take n.toNat else xs.take (xs.length - (-n).toNat)

/-- Python `xs[:top_k]` for a JSON-decoded `top_k`: `int` and `bool`
bounds slice (`True = 1`, `False = 0`), `None` means no bound, anything
else raises `TypeError`. -/
def pySlice (xs : List ℚ) : Json → Except String (List ℚ)
  | .int n => .ok (pySliceTo xs n)
  | .bool b => .ok (pySliceTo xs (if b then 1 else 0))
  | .null => .ok xs
  | _ => .error "slice indices must be integers or None or have an __index__ method"

/-- Embeds `process_search_command` of retriv_bridge.py.  The
`try`/`except` around the capability call is the `Except` match: a search
failure is turned into a `searchErrorObj` response locally, never
propagated.  The handler itself never raises. -/
def process_search_command (search : SearchOracle) (st : BridgeState)
    (command_data : List (String × Json)) : BridgeState × List Output :=
  match st.indexed, st.bm25_instance with
  | true, some inst =>
      let query := dictGet command_data "query" (.str "")
      let top_k := dictGet command_data "topK" (.int 5)
      if pyTruthy query then
        match search inst query with
        | .ok results =>
            match pySlice results top_k with
            | .ok sliced =>
                let formatted_results := sliced.enum.map
                  (fun p => Json.obj [("index", .int p.1), ("score", .float p.2)])
                (st, [.json (searchResultsObj formatted_results)])
            | .error msg => (st, [.json (searchErrorObj msg)])
        | .error msg => (st, [.json (searchErrorObj msg)])
      else
        (st, [.json (searchErrorObj "Empty query provided")])
  | _, _ =>
      (st, [.json (searchErrorObj "No documents have been indexed yet")])

/-- Python `==` between a JSON-decoded value and a string literal, as in
`action == "index"`: true exactly for the equal string. -/
def jsonEqStr : Json → String → Bool
  | .str s, t => s == t
  | _, _ => false

/-- One line of stdin as the loop body sees it after `line.strip()` and
`json.loads`: blank (skipped), a `json.loads` failure
(`JSONDecodeError`), or a parsed JSON value. -/
inductive InputLine where
  | blank
  | malformed
  | parsed (j : Json)
deriving Repr

/-- The two external-capability oracles, fixed for a run. -/
structure Oracles where
  build : BuildOracle
  search : SearchOracle

/-- Embeds one iteration of the `for line in sys.stdin` loop of `main`:
parse outcome dispatching, the `action` dispatch with default `""`, and
the two `except` clauses (`JSONDecodeError` → "Invalid JSON command",
generic `Exception` → its message).  A parsed non-object command raises
`AttributeError` at `command.get` and lands in the generic clause. -/
def handle_line (oc : Oracles) (st : BridgeState) (line : InputLine) :
    BridgeState × List Output :=
  match line with
  | .blank => (st, [])
  | .malformed => (st, [.json (errObj "Invalid JSON command")])
  | .parsed (.obj command) =>
      let action := dictGet command "action" (.str "")
      if jsonEqStr action "index" then
        let r := process_index_command oc.build st command
        match r.exn with
        | none => (r.state, r.out)
        | some msg => (r.state, r.out ++ [.json (errObj msg)])
      else if jsonEqStr action "search" then
        process_search_command oc.search st command
      else
        (st, [.json (errObj ("Unknown action: " ++ pyStr action))])
  | .parsed j => (st, [.json (errObj (noGetAttrMsg j))])

/-- The command loop of `main` over a whole input stream: threads the
global state through `handle_line` and concatenates the printed lines. -/
def main_loop (oc : Oracles) (st : BridgeState) : List InputLine → BridgeState × List Output
  | [] => (st, [])
  | line :: rest =>
      let r := handle_line oc st line
      let rr := main_loop oc r.1 rest
      (rr.1, r.2 ++ rr.2)

/-- Embeds `main`: print the readiness token, then run the loop from the
initial globals. -/
def run_main (oc : Oracles) (lines : List InputLine) : BridgeState × List Output :=
  let r := main_loop oc initialState lines
  (r.1, .raw "RETRIV_READY" :: r.2)

/-- A concrete oracle pair for closed instantiations: the build call always
returns normally, the search call always succeeds with an empty score
list. -/
def oc0 : Oracles := { build := fun _ => none, search := fun _ _ => .ok [] }

theorem jsonEqStr_eq_false {a : Json} {s : String} (h : a ≠ .str s) :
    jsonEqStr a s = false := by
  cases a <;> simp_all [jsonEqStr]

/-- C6: a search command processed while the readiness flag is false or no
index instance exists responds exactly with the
"No documents have been indexed yet" envelope and leaves the state
unchanged; the guard runs before the empty-query check, so the command
data (query included) is never consulted. -/
theorem C6_search_not_ready (search : SearchOracle) (st : BridgeState)
    (command : List (String × Json))
    (h : st.indexed = false ∨ st.bm25_instance = none) :
    process_search_command search st command =
      (st, [.json (searchErrorObj "No documents have been indexed yet")]) := by
  obtain ⟨bi, ind⟩ := st
  rcases h with h | h
  · cases h; cases bi <;> rfl
  · cases h; cases ind <;> rfl

/-- C6 witness: in the initial state, a search with an empty query yields
the no-index error, not the empty-query error. -/
theorem C6_search_not_ready_witness :
    process_search_command oc0.search initialState [("action", .str "search"), ("query", .str "")] =
      (initialState, [.json (searchErrorObj "No documents have been indexed yet")]) :=
  C6_search_not_ready oc0.search initialState
    [("action", .str "search"), ("query", .str "")] (Or.inl rfl)

/-- C8: a line whose `json.loads` fails is answered with exactly
`{"error": "Invalid JSON command"}`, no state changes, and the loop goes
on to process the remaining lines from the same state. -/
theorem C8_invalid_json (oc : Oracles) (st : BridgeState) (rest : List InputLine) :
    handle_line oc st .malformed = (st, [.json (errObj "Invalid JSON command")]) ∧
    main_loop oc st (.malformed :: rest) =
      ((main_loop oc st rest).1,
        .json (errObj "Invalid JSON command") :: (main_loop oc st rest).2) := by
  exact ⟨rfl, by simp [main_loop, handle_line]⟩

/-- C9: a parsed object command whose `action` value is neither the string
"index" nor the string "search" (the value defaulting to the empty string
when the field is absent) is answered with
`{"error": "Unknown action: <action>"}`, the action value interpolated by
`str()`, with no state change. -/
theorem C9_unknown_action (oc : Oracles) (st : BridgeState)
    (command : List (String × Json)) (a : Json)
    (ha : dictGet command "action" (.str "") = a)
    (h1 : a ≠ .str "index") (h2 : a ≠ .str "search") :
    handle_line oc st (.parsed (.obj command)) =
      (st, [.json (errObj ("Unknown action: " ++ pyStr a))]) := by
  simp [handle_line, ha, jsonEqStr_eq_false h1, jsonEqStr_eq_false h2]

/-- C9 witness: a concrete command with `action` absent defaults to the
empty string and is reported as an unknown action. -/
theorem C9_unknown_action_witness :
    handle_line oc0 initialState (.parsed (.obj [("query", .str "x")])) =
      (initialState, [.json (errObj ("Unknown action: " ++ pyStr (.str "")))]) :=
  C9_unknown_action oc0 initialState [("query", .str "x")] (.str "") rfl
    (by simp) (by simp)

/-- C10: a line that parses as JSON but not as an object is answered by the
generic catch-all of the command loop (the `AttributeError` message of
`command.get`), which differs from "Invalid JSON command"; the state is
unchanged and the loop continues with the remaining lines. -/
theorem C10_non_object_command (oc : Oracles) (st : BridgeState) (j : Json)
    (rest : List InputLine) (h : ∀ fields, j ≠ .obj fields) :
    handle_line oc st (.parsed j) = (st, [.json (errObj (noGetAttrMsg j))]) ∧
    noGetAttrMsg j ≠ "Invalid JSON command" ∧
    main_loop oc st (.parsed j :: rest) =
      ((main_loop oc st rest).1,
        .json (errObj (noGetAttrMsg j)) :: (main_loop oc st rest).2) := by
  have hl : handle_line oc st (.parsed j) = (st, [.json (errObj (noGetAttrMsg j))]) := by
    cases j <;> first | rfl | exact absurd rfl (h _)
  refine ⟨hl, ?_, ?_⟩
  · cases j <;>
      first
        | (simp only [noGetAttrMsg, pyTypeName]; decide)
        | exact absurd rfl (h _)
  · simp [main_loop, hl]

/-- C10 witness: a bare JSON array as input line. -/
theorem C10_non_object_command_witness :
    handle_line oc0 initialState (.parsed (.arr [.int 1])) =
      (initialState, [.json (errObj (noGetAttrMsg (.arr [.int 1])))]) ∧
    noGetAttrMsg (.arr [.int 1]) ≠ "Invalid JSON command" ∧
    main_loop oc0 initialState [.parsed (.arr [.int 1])] =
      ((main_loop oc0 initialState []).1,
        .json (errObj (noGetAttrMsg (.arr [.int 1]))) :: (main_loop oc0 initialState []).2) :=
  C10_non_object_command oc0 initialState (.arr [.int 1]) []
    (fun fields hf => Json.noConfusion hf)

/-- C5: when the scoring capability raises during a search processed in a
ready state with a truthy query, the query handler catches the failure
itself and answers inside the `search_results` envelope with empty
results and the failure message; the command loop sees a normal handler
return (no generic `{"error": ...}` response) and continues with the
remaining lines from an unchanged state. -/
theorem C5_capability_failure (oc : Oracles) (st : BridgeState) (inst : BM25Instance)
    (command : List (String × Json)) (msg : String) (rest : List InputLine)
    (hact : dictGet command "action" (.str "") = .str "search")
    (hind : st.indexed = true) (hinst : st.bm25_instance = some inst)
    (hq : pyTruthy (dictGet command "query" (.str "")) = true)
    (hsearch : oc.search inst (dictGet command "query" (.str "")) = .error msg) :
    handle_line oc st (.parsed (.obj command)) = (st, [.json (searchErrorObj msg)]) ∧
    main_loop oc st (.parsed (.obj command) :: rest) =
      ((main_loop oc st rest).1,
        .json (searchErrorObj msg) :: (main_loop oc st rest).2) := by
  have hps : process_search_command oc.search st command = (st, [.json (searchErrorObj msg)]) := by
    obtain ⟨bi, ind⟩ := st
    subst hind
    subst hinst
    simp [process_search_command, hq, hsearch]
  have e1 : jsonEqStr (.str "search") "index" = false := rfl
  have e2 : jsonEqStr (.str "search") "search" = true := rfl
  have hhl : handle_line oc st (.parsed (.obj command)) = (st, [.json (searchErrorObj msg)]) := by
    simp [handle_line, hact, e1, e2, hps]
  exact ⟨hhl, by simp [main_loop, hhl]⟩

/-- C5 witness: a ready state and a capability that always raises with
message "bm25 internal error". -/
theorem C5_capability_failure_witness :
    handle_line
        { build := fun _ => none, search := fun _ _ => .error "bm25 internal error" }
        { bm25_instance := some { k1 := .float (3 / 2), b := .float (3 / 4),
                                  epsilon := .float (1 / 4), docs := some (.arr [.str "a"]) },
          indexed := true }
        (.parsed (.obj [("action", .str "search"), ("query", .str "q")])) =
      ({ bm25_instance := some { k1 := .float (3 / 2), b := .float (3 / 4),
                                 epsilon := .float (1 / 4), docs := some (.arr [.str "a"]) },
         indexed := true },
       [.json (searchErrorObj "bm25 internal error")]) :=
  (C5_capability_failure
    { build := fun _ => none, search := fun _ _ => .error "bm25 internal error" }
    { bm25_instance := some { k1 := .float (3 / 2), b := .float (3 / 4),
                              epsilon := .float (1 / 4), docs := some (.arr [.str "a"]) },
      indexed := true }
    { k1 := .float (3 / 2), b := .float (3 / 4),
      epsilon := .float (1 / 4), docs := some (.arr [.str "a"]) }
    [("action", .str "search"), ("query", .str "q")]
    "bm25 internal error" [] rfl rfl rfl rfl rfl).1

/-- C7: re-issuing an identical index command with a non-empty documents
array (and a well-formed options mapping, the build succeeding) leaves
the service in the same state as issuing it once: readiness true and the
instance holding the same documents and the same configuration
parameters. -/
theorem C7_index_idempotent (build : BuildOracle) (st : BridgeState)
    (command : List (String × Json)) (l : List Json) (opts : List (String × Json))
    (hdocs : dictGet command "documents" (.arr []) = .arr l) (hne : l ≠ [])
    (hopts : dictGet command "options" (.obj []) = .obj opts)
    (hbuild : build (.arr l) = none) :
    (process_index_command build
        (process_index_command build st command).state command).state =
      (process_index_command build st command).state ∧
    (process_index_command build st command).state.indexed = true ∧
    (process_index_command build st command).state.bm25_instance =
      some { k1 := dictGet opts "k1" (.float (3 / 2)),
             b := dictGet opts "b" (.float (3 / 4)),
             epsilon := dictGet opts "epsilon" (.float (1 / 4)),
             docs := some (.arr l) } := by
  have ht : pyTruthy (.arr l) = true := by
    cases l with
    | nil => exact absurd rfl hne
    | cons a as => rfl
  have hone : ∀ s : BridgeState, (process_index_command build s command).state =
      { bm25_instance := some { k1 := dictGet opts "k1" (.float (3 / 2)),
                                b := dictGet opts "b" (.float (3 / 4)),
                                epsilon := dictGet opts "epsilon" (.float (1 / 4)),
                                docs := some (.arr l) },
        indexed := true } := by
    intro s
    simp [process_index_command, hdocs, hopts, ht, hbuild]
  exact ⟨by rw [hone, hone], by rw [hone], by rw [hone]⟩

/-- C7 witness: indexing `["a"]` with default options twice equals once. -/
theorem C7_index_idempotent_witness :
    (process_index_command oc0.build
        (process_index_command oc0.build initialState
          [("documents", .arr [.str "a"])]).state
        [("documents", .arr [.str "a"])]).state =
      (process_index_command oc0.build initialState
        [("documents", .arr [.str "a"])]).state ∧
    (process_index_command oc0.build initialState
        [("documents", .arr [.str "a"])]).state.indexed = true ∧
    (process_index_command oc0.build initialState
        [("documents", .arr [.str "a"])]).state.bm25_instance =
      some { k1 := .float (3 / 2), b := .float (3 / 4),
             epsilon := .float (1 / 4), docs := some (.arr [.str "a"]) } :=
  C7_index_idempotent oc0.build initialState [("documents", .arr [.str "a"])]
    [.str "a"] [] rfl (by simp) rfl rfl

/-- Result of the index command `{"action": "index", "documents": ["doc a"]}`
issued in the initial state (build succeeding). -/
def firstIndexRun : IndexResult :=
  process_index_command oc0.build initialState
    [("action", .str "index"), ("documents", .arr [.str "doc a"])]

/-- Result of the empty-documents index command
`{"action": "index", "documents": []}` issued right after
`firstIndexRun`. -/
def emptyIndexRun : IndexResult :=
  process_index_command oc0.build firstIndexRun.state
    [("action", .str "index"), ("documents", .arr [])]

/-- C3 (code bug exhibit): after a successful index of `["doc a"]`, the
empty-documents index command emits the "No documents provided for
indexing" error and keeps the readiness flag — but it does NOT leave the
state unchanged: the global `bm25_instance` is reassigned to a fresh
instance before `documents` is examined, so the previously built index
(docs `["doc a"]`) is replaced by an unindexed instance (docs `none`). -/
theorem C3_empty_index_clobbers_prior_index :
    emptyIndexRun.out = [.json (errObj "No documents provided for indexing")] ∧
    emptyIndexRun.state.indexed = true ∧
    firstIndexRun.state.bm25_instance =
      some { k1 := .float (3 / 2), b := .float (3 / 4),
             epsilon := .float (1 / 4), docs := some (.arr [.str "doc a"]) } ∧
    emptyIndexRun.state.bm25_instance =
      some { k1 := .float (3 / 2), b := .float (3 / 4),
             epsilon := .float (1 / 4), docs := none } ∧
    emptyIndexRun.state.bm25_instance ≠ firstIndexRun.state.bm25_instance := by
  refine ⟨rfl, rfl, rfl, rfl, fun hcontra => ?_⟩
  exact Option.noConfusion (Option.some.inj (congrArg (Option.map BM25Instance.docs) hcontra))

/-- The two-command input stream exhibiting the broken readiness
invariant: a successful index of `["doc a"]` followed by an
empty-documents index command. -/
def c2Lines : List InputLine :=
  [.parsed (.obj [("action", .str "index"), ("documents", .arr [.str "doc a"])]),
   .parsed (.obj [("action", .str "index"), ("documents", .arr [])])]

/-- C2 (code bug exhibit): a reachable state of the service (reached from
process start by the two commands of `c2Lines`) where the readiness flag
is true while the current instance was never indexed (`docs = none`,
i.e. no index was fully built from a non-empty document sequence): the
builder reassigned the shared `bm25_instance` before any new index was
constructed, so the claimed invariant fails on this state. -/
theorem C2_readiness_invariant_violated :
    (run_main oc0 c2Lines).1.indexed = true ∧
    (run_main oc0 c2Lines).1.bm25_instance =
      some { k1 := .float (3 / 2), b := .float (3 / 4),
             epsilon := .float (1 / 4), docs := none } := by
  exact ⟨rfl, rfl⟩

theorem pySliceTo_eq_take (xs : List ℚ) (k : Int) : ∃ n, pySliceTo xs k = xs.take n := by
  unfold pySliceTo
  split
  · exact ⟨k.toNat, rfl⟩
  · exact ⟨xs.length - (-k).toNat, rfl⟩

theorem process_search_success (search : SearchOracle) (st : BridgeState)
    (inst : BM25Instance) (command : List (String × Json)) (scores : List ℚ) (k : Int)
    (hind : st.indexed = true) (hinst : st.bm25_instance = some inst)
    (hq : pyTruthy (dictGet command "query" (.str "")) = true)
    (hk : dictGet command "topK" (.int 5) = .int k)
    (hsearch : search inst (dictGet command "query" (.str "")) = .ok scores) :
    process_search_command search st command =
      (st, [.json (searchResultsObj ((pySliceTo scores k).enum.map
        (fun p => Json.obj [("index", .int p.1), ("score", .float p.2)])))]) := by
  obtain ⟨bi, ind⟩ := st
  subst hind
  subst hinst
  simp [process_search_command, hq, hk, hsearch, pySlice]

/-- C4: on the successful search path the `index` field of the j-th
result entry is exactly j (its position in the truncated result list),
whatever the indexed documents, the capability's scores, or the requested
`topK` bound (which always cuts a prefix). -/
theorem C4_result_indices_are_positions (search : SearchOracle) (st : BridgeState)
    (inst : BM25Instance) (command : List (String × Json)) (scores : List ℚ) (k : Int)
    (hind : st.indexed = true) (hinst : st.bm25_instance = some inst)
    (hq : pyTruthy (dictGet command "query" (.str "")) = true)
    (hk : dictGet command "topK" (.int 5) = .int k)
    (hsearch : search inst (dictGet command "query" (.str "")) = .ok scores) :
    ∃ entries,
      process_search_command search st command =
        (st, [.json (searchResultsObj entries)]) ∧
      ∀ j, j < entries.length →
        entries.getD j .null =
          .obj [("index", .int j), ("score", .float (scores.getD j 0))] := by
  refine ⟨_, process_search_success search st inst command scores k hind hinst hq hk hsearch, ?_⟩
  intro j hj
  obtain ⟨n, hn⟩ := pySliceTo_eq_take scores k
  have hj1 : j < (scores.take n).length := by
    simpa [hn, List.length_map, List.enum_length] using hj
  have hjn : j < n := by rw [List.length_take] at hj1; omega
  have hjs : j < scores.length := by rw [List.length_take] at hj1; omega
  simp only [List.getD_eq_getElem?_getD, List.getElem?_map, hn, List.getElem?_enum,
    List.getElem?_take_of_lt hjn, List.getElem?_eq_getElem hjs]
  simp

/-- C4 witness: three scores, default `topK` (field absent, so 5). -/
theorem C4_result_indices_are_positions_witness :
    ∃ entries,
      process_search_command (fun _ _ => Except.ok [(5 : ℚ), 3, 2])
          { bm25_instance := some { k1 := .float (3 / 2), b := .float (3 / 4),
                                    epsilon := .float (1 / 4),
                                    docs := some (.arr [.str "a", .str "b", .str "c"]) },
            indexed := true }
          [("action", .str "search"), ("query", .str "q")] =
        ({ bm25_instance := some { k1 := .float (3 / 2), b := .float (3 / 4),
                                   epsilon := .float (1 / 4),
                                   docs := some (.arr [.str "a", .str "b", .str "c"]) },
           indexed := true },
         [.json (searchResultsObj entries)]) ∧
      ∀ j, j < entries.length →
        entries.getD j .null =
          .obj [("index", .int j), ("score", .float (([(5 : ℚ), 3, 2]).getD j 0))] :=
  C4_result_indices_are_positions (fun _ _ => Except.ok [(5 : ℚ), 3, 2])
    { bm25_instance := some { k1 := .float (3 / 2), b := .float (3 / 4),
                              epsilon := .float (1 / 4),
                              docs := some (.arr [.str "a", .str "b", .str "c"]) },
      indexed := true }
    { k1 := .float (3 / 2), b := .float (3 / 4), epsilon := .float (1 / 4),
      docs := some (.arr [.str "a", .str "b", .str "c"]) }
    [("action", .str "search"), ("query", .str "q")]
    [(5 : ℚ), 3, 2] 5 rfl rfl rfl rfl rfl

/-- C1: a search processed in a ready state with a truthy query, a
non-negative integer `topK` (5 when the field is absent) and a succeeding
scoring capability whose scores are aligned to the indexed documents and
descending, responds with the `search_results` envelope whose results
list has `min topK (number of scores)` entries — in particular at most
`topK` — where the j-th entry pairs ordinal `j` (a valid position in the
indexed document sequence) with the capability's j-th score, and the
emitted scores are in the capability's own descending order (a prefix,
never re-sorted). -/
theorem C1_search_success_shape (search : SearchOracle) (st : BridgeState)
    (inst : BM25Instance) (command : List (String × Json)) (docs : List Json)
    (scores : List ℚ) (k : Int)
    (hind : st.indexed = true) (hinst : st.bm25_instance = some inst)
    (hdocs : inst.docs = some (.arr docs))
    (hq : pyTruthy (dictGet command "query" (.str "")) = true)
    (hk : dictGet command "topK" (.int 5) = .int k) (hk0 : 0 ≤ k)
    (hsearch : search inst (dictGet command "query" (.str "")) = .ok scores)
    (halign : scores.length = docs.length)
    (hsorted : List.Pairwise (fun a b => b ≤ a) scores) :
    ∃ entries,
      process_search_command search st command =
        (st, [.json (searchResultsObj entries)]) ∧
      entries.length = min k.toNat scores.length ∧
      entries.length ≤ k.toNat ∧
      (∀ j, j < entries.length →
        entries.getD j .null =
          .obj [("index", .int j), ("score", .float (scores.getD j 0))] ∧
        j < docs.length) ∧
      (∀ i j, i ≤ j → j < entries.length → scores.getD j 0 ≤ scores.getD i 0) := by
  have hslice : pySliceTo scores k = scores.take k.toNat := by
    unfold pySliceTo
    rw [if_pos hk0]
  refine ⟨_, process_search_success search st inst command scores k hind hinst hq hk hsearch,
    ?_, ?_, ?_, ?_⟩
  · simp [hslice, List.length_map, List.enum_length, List.length_take]
  · simp only [hslice, List.length_map, List.enum_length, List.length_take]
    omega
  · intro j hj
    have hj1 : j < min k.toNat scores.length := by
      simpa [hslice, List.length_map, List.enum_length, List.length_take] using hj
    have hjk : j < k.toNat := by omega
    have hjs : j < scores.length := by omega
    refine ⟨?_, by omega⟩
    simp only [List.getD_eq_getElem?_getD, List.getElem?_map, hslice, List.getElem?_enum,
      List.getElem?_take_of_lt hjk, List.getElem?_eq_getElem hjs]
    simp
  · intro i j hij hj
    have hj1 : j < min k.toNat scores.length := by
      simpa [hslice, List.length_map, List.enum_length, List.length_take] using hj
    have hjs : j < scores.length := by omega
    have his : i < scores.length := by omega
    have e1 : scores.getD i 0 = scores[i] := by
      simp [List.getD_eq_getElem?_getD, List.getElem?_eq_getElem his]
    have e2 : scores.getD j 0 = scores[j] := by
      simp [List.getD_eq_getElem?_getD, List.getElem?_eq_getElem hjs]
    rcases Nat.lt_or_ge i j with hlt | hge
    · have hp := List.pairwise_iff_getElem.mp hsorted i j his hjs hlt
      rw [e1, e2]
      exact hp
    · have hieq : i = j := Nat.le_antisymm hij hge
      subst hieq
      exact le_of_eq rfl

/-- C1 witness: three documents, descending scores `[5, 3, 2]`,
`topK = 2`. -/
theorem C1_search_success_shape_witness :
    ∃ entries,
      process_search_command (fun _ _ => Except.ok [(5 : ℚ), 3, 2])
          { bm25_instance := some { k1 := .float (3 / 2), b := .float (3 / 4),
                                    epsilon := .float (1 / 4),
                                    docs := some (.arr [.str "a", .str "b", .str "c"]) },
            indexed := true }
          [("action", .str "search"), ("query", .str "beta"), ("topK", .int 2)] =
        ({ bm25_instance := some { k1 := .float (3 / 2), b := .float (3 / 4),
                                   epsilon := .float (1 / 4),
                                   docs := some (.arr [.str "a", .str "b", .str "c"]) },
           indexed := true },
         [.json (searchResultsObj entries)]) ∧
      entries.length = min (Int.toNat 2) ([(5 : ℚ), 3, 2]).length ∧
      entries.length ≤ Int.toNat 2 ∧
      (∀ j, j < entries.length →
        entries.getD j .null =
          .obj [("index", .int j), ("score", .float (([(5 : ℚ), 3, 2]).getD j 0))] ∧
        j < ([Json.str "a", .str "b", .str "c"]).length) ∧
      (∀ i j, i ≤ j → j < entries.length →
        ([(5 : ℚ), 3, 2]).getD j 0 ≤ ([(5 : ℚ), 3, 2]).getD i 0) :=
  C1_search_success_shape (fun _ _ => Except.ok [(5 : ℚ), 3, 2])
    { bm25_instance := some { k1 := .float (3 / 2), b := .float (3 / 4),
                              epsilon := .float (1 / 4),
                              docs := some (.arr [.str "a", .str "b", .str "c"]) },
      indexed := true }
    { k1 := .float (3 / 2), b := .float (3 / 4), epsilon := .float (1 / 4),
      docs := some (.arr [.str "a", .str "b", .str "c"]) }
    [("action", .str "search"), ("query", .str "beta"), ("topK", .int 2)]
    [.str "a", .str "b", .str "c"] [(5 : ℚ), 3, 2] 2
    rfl rfl rfl rfl rfl (by decide) rfl rfl
    (by norm_num [List.pairwise_cons])

end RetrivBridge
